import Mathlib

/-!
# Verification of the RegloCPF pump-controller protocol engine

Shallow embedding of `src/RegloCPF.cpp` / `src/RegloCPF.h` (a driver for a
Reglo-CPF digital pump speaking an ASCII command/response protocol over an
Arduino `Stream`).

Modelling conventions:
* The byte channel is a trace `List Int` of successive results of
  `_stream->read()`: `-1` means "no byte available at that moment", any value
  in `[0, 255]` is a received byte.  When the trace is exhausted, `read()`
  returns `-1` forever; loops that would then spin forever are modelled by
  returning `none`.
* Bytes written by `_stream->print` are collected into a `List Int` of byte
  values.
* C `char` is signed 8-bit (AVR), so storing a `read()` result into a `char`
  wraps it into `[-128, 127]`; this is `asChar`.
* `double` arithmetic of the set-point verification is modelled over `ℚ`
  (the rounding step in the source exists precisely to absorb the
  floating-point representation error, so exact rational arithmetic is the
  intended semantics).
-/

/-! ## Result codes (enum in `RegloCPF.h`) -/

def REGLO_OK : Int := 0
def REGLO_ERROR : Int := 1
def REGLO_TIMEOUT : Int := 2
def REGLO_OUT_OF_RANGE : Int := 3
def REGLO_INTERNAL_ERROR : Int := 4
def REGLO_BAD_RESPONSE : Int := 5

/-- Buffer size for command formatting (`BUFFER_SIZE` in the source). -/
def BUFFER_SIZE : Nat := 16

/-! ## Channel primitives -/

/-- One call of `_stream->read()` on the trace: pops the next scheduled
result, or `-1` when the trace is exhausted (empty receive buffer). -/
def read1 : List Int → Int × List Int
  | [] => (-1, [])
  | b :: r => (b, r)

/-- Storing an `int` read result into a signed 8-bit `char`
(two's-complement wrap).  `-1` stays `-1`; byte `0xFF` also becomes `-1`. -/
def asChar (b : Int) : Int := (b + 128) % 256 - 128

/-- `RegloCPF::clear_buffer`: `while (_stream->read() != -1) { _stream->read(); }`
— each iteration that sees a byte discards one further read result. -/
def clear_buffer : List Int → List Int
  | [] => []
  | b :: rest =>
    if b = -1 then rest
    else
      match rest with
      | [] => []
      | _ :: rest2 => clear_buffer rest2

/-! ## Response confirmer (`RegloCPF::confirm`)

The source loop is
`while (response == -1 && time < 100000) { time++; response = _stream->read(); }`;
`fuel` below is the number of loop iterations still allowed, i.e.
`100000 - time`. -/

def confirmGo : Nat → Int → List Int → Int × List Int
  | 0, resp, l => (resp, l)
  | fuel + 1, resp, l =>
    if resp = -1 then
      let p := read1 l
      confirmGo fuel (asChar p.1) p.2
    else (resp, l)

/-- `RegloCPF::confirm`: one initial read, the bounded retry loop, then the
switch on the `char` response.  Returns the result code and the remaining
read trace. -/
def confirm (l : List Int) : Int × List Int :=
  let p := read1 l
  let q := confirmGo 100000 (asChar p.1) p.2
  let code :=
    if q.1 = 42 then REGLO_OK            -- RESPONSE_OK '*'
    else if q.1 = 35 then REGLO_ERROR    -- RESPONSE_ERROR '#'
    else if q.1 = -1 then REGLO_TIMEOUT  -- RESPONSE_TIMEOUT (char)-1
    else REGLO_BAD_RESPONSE
  (code, q.2)

/-! ## Command rendering and `RegloCPF::request` -/

/-- Decimal digits of `n`, least significant first; the fuel argument of
the worker strictly bounds `n`, so it never runs out. -/
def natDigitsRevGo : Nat → Nat → List Nat
  | 0, _ => []
  | fuel + 1, n => if n < 10 then [n] else n % 10 :: natDigitsRevGo fuel (n / 10)

def natDigitsRev (n : Nat) : List Nat := natDigitsRevGo (n + 1) n

/-- ASCII bytes of the decimal rendering of `n` (`%d` for a nonnegative
argument). -/
def natDecimal (n : Nat) : List Int :=
  (natDigitsRev n).reverse.map (fun (d : Nat) => 48 + (d : Int))

/-- `%.4d` for a nonnegative argument: zero-padded to at least 4 digits. -/
def pad4 (m : Nat) : List Int :=
  List.replicate (4 - (natDecimal m).length) 48 ++ natDecimal m

/-- Rendering of `REQUEST_SET_FLOW_RATE = "%df%.4d%c%.1d\r"` applied to
(address, mantissa, sign char, absolute exponent).  `%.1d` needs at least one
digit, which `natDecimal` always produces. -/
def renderSetFlowRate (addr : Nat) (m : Nat) (sign : Int) (absE : Nat) : List Int :=
  natDecimal addr ++ [102] ++ pad4 m ++ [sign] ++ natDecimal absE ++ [13]

/-- `RegloCPF::request`: `vsnprintf` into a 16-byte buffer, fail fast with
`REGLO_INTERNAL_ERROR` when the rendering is malformed (`none`, C result
`-1`) or its length reaches the buffer size; otherwise print the rendered
bytes.  Returns the code and the channel's written-byte log. -/
def request (rendered : Option (List Int)) (out : List Int) : Int × List Int :=
  match rendered with
  | none => (REGLO_INTERNAL_ERROR, out)
  | some s => if BUFFER_SIZE ≤ s.length then (REGLO_INTERNAL_ERROR, out) else (REGLO_OK, out ++ s)

/-! ## Flow-rate frame collection (`RegloCPF::read_float_from_pump`)

Each frame byte is obtained by `while (input[i] == -1) input[i] = _stream->read();`
— an unbounded wait on the (char-converted) read result.  A trace that runs
out before the byte arrives models the loop spinning forever: `none`. -/

/-- Unbounded wait for one byte: skip trace entries whose `char` conversion
is `-1` (no byte, or the aliasing byte `0xFF`); `none` on exhaustion. -/
def skipWait : List Int → Option (Int × List Int)
  | [] => none
  | b :: r => if asChar b = -1 then skipWait r else some (asChar b, r)

/-- Collect `n` frame bytes, each via `skipWait`. -/
def collectN : Nat → List Int → Option (List Int × List Int)
  | 0, l => some ([], l)
  | n + 1, l =>
    match skipWait l with
    | none => none
    | some (c, r) =>
      match collectN n r with
      | none => none
      | some (cs, r2) => some (c :: cs, r2)

/-! ## `sscanf(input, "%dE%d\r\n", mantisse, exponent)`

`%d` skips whitespace, accepts an optional sign and at least one digit; a
literal `E` must match exactly; the trailing `\r\n` are whitespace
directives that never fail and assign nothing.  Arguments are assigned only
for the conversions that matched; the source ignores the return count. -/

def isWSByte (c : Int) : Bool :=
  c = 32 || c = 9 || c = 10 || c = 11 || c = 12 || c = 13

def isDigitByte (c : Int) : Bool := 48 ≤ c && c ≤ 57

def dropWS : List Int → List Int
  | [] => []
  | c :: r => if isWSByte c then dropWS r else c :: r

/-- Consume a maximal digit run, accumulating its decimal value. -/
def digitsVal : Int → List Int → Int × List Int
  | acc, [] => (acc, [])
  | acc, c :: r =>
    if isDigitByte c then digitsVal (10 * acc + (c - 48)) r else (acc, c :: r)

/-- One `%d` conversion: `none` on matching failure (no digit found). -/
def scanInt (l : List Int) : Option (Int × List Int) :=
  match dropWS l with
  | [] => none
  | c :: r =>
    if c = 43 then
      match r with
      | [] => none
      | d :: r2 => if isDigitByte d then some (digitsVal 0 (d :: r2)) else none
    else if c = 45 then
      match r with
      | [] => none
      | d :: r2 =>
        if isDigitByte d then
          let p := digitsVal 0 (d :: r2)
          some (-p.1, p.2)
        else none
    else if isDigitByte c then some (digitsVal 0 (c :: r))
    else none

/-- The whole `"%dE%d\r\n"` scan over the collected frame, returning the
final values of the two output arguments (initial values where the
corresponding conversion did not match). -/
def scanFrame (l : List Int) (m0 e0 : Int) : Int × Int :=
  match scanInt l with
  | none => (m0, e0)
  | some (m, rest) =>
    match rest with
    | c :: rest2 =>
      if c = 69 then
        match scanInt rest2 with
        | none => (m, e0)
        | some (e, _) => (m, e)
      else (m, e0)
    | [] => (m, e0)

/-- `RegloCPF::read_float_from_pump`: wait for the first frame byte; `#`
means the device signalled failure (`REGLO_ERROR`, nothing further read);
otherwise collect the remaining 8 of the 9 frame bytes and `sscanf` them.
Returns `(code, mantisse, exponent, remaining trace)`; the source returns
`REGLO_OK` without checking the scan's result. -/
def read_float_from_pump (l : List Int) (m0 e0 : Int) :
    Option (Int × Int × Int × List Int) :=
  match skipWait l with
  | none => none
  | some (c0, rest) =>
    if c0 = 35 then some (REGLO_ERROR, m0, e0, rest)
    else
      match collectN 8 rest with
      | none => none
      | some (cs, rest2) =>
        let me := scanFrame (c0 :: cs) m0 e0
        some (REGLO_OK, me.1, me.2, rest2)

/-! ## Set-point verification (`RegloCPF::read_float_and_confirm`) -/

/-- C `round`: nearest integer, halves away from zero. -/
def roundC (q : ℚ) : Int :=
  if 0 ≤ q then ⌊q + 1 / 2⌋ else -⌊-q + 1 / 2⌋

/-- `RegloCPF::read_float_and_confirm`: decode the echoed frame into fresh
locals (initialised to 0), propagate a decode error with the caller's values
untouched; otherwise overwrite the caller's values with the echoed ones and
compare `round(new*10^e*10^4)` with `round(old*10^e*10^4)`. -/
def read_float_and_confirm (l : List Int) (m0 e0 : Int) :
    Option (Int × Int × Int × List Int) :=
  match read_float_from_pump l 0 0 with
  | none => none
  | some (code, mN, eN, rest) =>
    if code ≠ REGLO_OK then some (code, m0, e0, rest)
    else
      let values : ℚ := (mN : ℚ) * (10 : ℚ) ^ (eN : Int)
      let old : ℚ := (m0 : ℚ) * (10 : ℚ) ^ (e0 : Int)
      if roundC (values * 10000) = roundC (old * 10000) then
        some (REGLO_OK, mN, eN, rest)
      else
        some (REGLO_BAD_RESPONSE, mN, eN, rest)

/-! ## Public flow-rate operations

Each operation returns the bytes it wrote to the channel together with the
completion outcome `(code, mantisse, exponent, remaining read trace)`
(`none` when a read loop would spin forever).  The written bytes are
produced before the read phase starts, so they are reported even for a
non-completing read. -/

/-- `RegloCPF::set_flow_rate`: drain stale bytes, validate exponent then
mantissa (`REGLO_OUT_OF_RANGE`), render `REQUEST_SET_FLOW_RATE` with the
sign character and `abs(exponent)`, send it (`request`), then decode and
verify the echo. -/
def set_flow_rate (addr : Nat) (l : List Int) (m0 e0 : Int) :
    List Int × Option (Int × Int × Int × List Int) :=
  let l1 := clear_buffer l
  if e0 > 9 ∨ e0 < -9 then ([], some (REGLO_OUT_OF_RANGE, m0, e0, l1))
  else if m0 > 9999 ∨ m0 < 0 then ([], some (REGLO_OUT_OF_RANGE, m0, e0, l1))
  else
    let sign : Int := if 0 ≤ e0 then 43 else 45
    let rc := request (some (renderSetFlowRate addr m0.toNat sign e0.natAbs)) []
    if rc.1 ≠ REGLO_OK then (rc.2, some (REGLO_INTERNAL_ERROR, m0, e0, l1))
    else (rc.2, read_float_and_confirm l1 m0 e0)

/-- `RegloCPF::get_flow_rate`: drain stale bytes, send `REQUEST_GET_FLOW_RATE`
(`"%df\r"`), then decode the frame.  A request failure is remapped to
`REGLO_INTERNAL_ERROR` with the caller's values untouched. -/
def get_flow_rate (addr : Nat) (l : List Int) (m0 e0 : Int) :
    List Int × Option (Int × Int × Int × List Int) :=
  let l1 := clear_buffer l
  let rc := request (some (natDecimal addr ++ [102, 13])) []
  if rc.1 ≠ REGLO_OK then (rc.2, some (REGLO_INTERNAL_ERROR, m0, e0, l1))
  else (rc.2, read_float_from_pump l1 m0 e0)

/-- The `REQUEST_AND_CONFIRM` pattern shared by the six simple commands:
render `"%d<letter>\r"`, send it, propagate a request failure, otherwise run
the confirmer.  Returns `(written bytes, code, remaining read trace)`. -/
def simpleCmd (letter : Int) (addr : Nat) (l : List Int) :
    List Int × Int × List Int :=
  let rc := request (some (natDecimal addr ++ [letter, 13])) []
  if rc.1 ≠ REGLO_OK then (rc.2, rc.1, l)
  else
    let c := confirm l
    (rc.2, c.1, c.2)

/-! ## The controller object (`class RegloCPF`) -/

/-- The controller's member state: the stored channel reference (modelled as
a plain numeric identifier) and the stored `uint8_t` address. -/
structure RegloCPF where
  stream : Nat
  address : Nat
deriving DecidableEq

/-- `RegloCPF::RegloCPF(Stream*, const uint8_t)`: stores both members as
given; the address argument is a `uint8_t`, so a wider caller value arrives
reduced mod 256.  No validation is performed. -/
def mkRegloCPF (stream : Nat) (address : Nat) : RegloCPF :=
  ⟨stream, address % 256⟩

/-- `RegloCPF::start` (`"%dH\r"`). Returns the unchanged controller (the
method body assigns no member) with the operation's effect. -/
def RegloCPF.start (c : RegloCPF) (l : List Int) :
    RegloCPF × List Int × Int × List Int :=
  (c, simpleCmd 72 c.address l)

/-- `RegloCPF::stop` (`"%dI\r"`). -/
def RegloCPF.stop (c : RegloCPF) (l : List Int) :
    RegloCPF × List Int × Int × List Int :=
  (c, simpleCmd 73 c.address l)

/-- `RegloCPF::disable_control_panel` (`"%dB\r"`). -/
def RegloCPF.disable_control_panel (c : RegloCPF) (l : List Int) :
    RegloCPF × List Int × Int × List Int :=
  (c, simpleCmd 66 c.address l)

/-- `RegloCPF::enable_control_panel` (`"%dA\r"`). -/
def RegloCPF.enable_control_panel (c : RegloCPF) (l : List Int) :
    RegloCPF × List Int × Int × List Int :=
  (c, simpleCmd 65 c.address l)

/-- `RegloCPF::clockwise` (`"%dJ\r"`). -/
def RegloCPF.clockwise (c : RegloCPF) (l : List Int) :
    RegloCPF × List Int × Int × List Int :=
  (c, simpleCmd 74 c.address l)

/-- `RegloCPF::counterClockwise` (`"%dK\r"`). -/
def RegloCPF.counterClockwise (c : RegloCPF) (l : List Int) :
    RegloCPF × List Int × Int × List Int :=
  (c, simpleCmd 75 c.address l)

/-- `RegloCPF::get_flow_rate` on the controller object. -/
def RegloCPF.get_flow_rate' (c : RegloCPF) (l : List Int) (m0 e0 : Int) :
    RegloCPF × List Int × Option (Int × Int × Int × List Int) :=
  (c, get_flow_rate c.address l m0 e0)

/-- `RegloCPF::set_flow_rate` on the controller object. -/
def RegloCPF.set_flow_rate' (c : RegloCPF) (l : List Int) (m0 e0 : Int) :
    RegloCPF × List Int × Option (Int × Int × Int × List Int) :=
  (c, set_flow_rate c.address l m0 e0)

/-! ## Helper lemmas -/

lemma asChar_neg_one : asChar (-1) = -1 := rfl

lemma asChar_small {b : Int} (h0 : 0 ≤ b) (h1 : b < 128) : asChar b = b := by
  unfold asChar; omega

lemma asChar_large {b : Int} (h0 : 128 ≤ b) (h1 : b < 256) : asChar b = b - 256 := by
  unfold asChar; omega

lemma asChar_byte_ne {b : Int} (h0 : 0 ≤ b) (h1 : b < 255) : asChar b ≠ -1 := by
  unfold asChar; omega

lemma confirmGo_stop (fuel : Nat) (resp : Int) (l : List Int) (h : resp ≠ -1) :
    confirmGo fuel resp l = (resp, l) := by
  cases fuel <;> simp [confirmGo, h]

lemma confirmGo_nil (fuel : Nat) : confirmGo fuel (-1) [] = (-1, []) := by
  induction fuel with
  | zero => rfl
  | succ n ih => simp [confirmGo, read1, asChar_neg_one, ih]

lemma confirmGo_replicate (k : Nat) (fuel : Nat) (b : Int) (rest : List Int)
    (hk : k < fuel) (hb : asChar b ≠ -1) :
    confirmGo fuel (-1) (List.replicate k (-1) ++ b :: rest) = (asChar b, rest) := by
  induction k generalizing fuel with
  | zero =>
    obtain ⟨f, rfl⟩ : ∃ f, fuel = f + 1 := ⟨fuel - 1, by omega⟩
    simp [confirmGo, read1, confirmGo_stop f (asChar b) rest hb]
  | succ n ih =>
    obtain ⟨f, rfl⟩ : ∃ f, fuel = f + 1 := ⟨fuel - 1, by omega⟩
    simp only [List.replicate_succ, List.cons_append, confirmGo, if_pos rfl, read1,
      asChar_neg_one]
    exact ih f (by omega)

lemma confirmGo_noByte (fuel : Nat) (l : List Int) (h : ∀ x ∈ l, asChar x = -1) :
    (confirmGo fuel (-1) l).1 = -1 := by
  induction fuel generalizing l with
  | zero => rfl
  | succ n ih =>
    cases l with
    | nil => simp [confirmGo, read1, asChar_neg_one]; exact congrArg Prod.fst (confirmGo_nil n) ▸ rfl
    | cons x r =>
      simp only [confirmGo, if_pos rfl, read1]
      rw [h x (by simp)]
      exact ih r (fun y hy => h y (by simp [hy]))

lemma confirm_replicate_byte (k : Nat) (b : Int) (rest : List Int)
    (hk : k ≤ 100000) (h0 : 0 ≤ b) (h1 : b < 255) :
    confirm (List.replicate k (-1) ++ b :: rest) = (
      if asChar b = 42 then REGLO_OK
      else if asChar b = 35 then REGLO_ERROR
      else if asChar b = -1 then REGLO_TIMEOUT
      else REGLO_BAD_RESPONSE, rest) := by
  cases k with
  | zero =>
    simp only [List.replicate, List.nil_append, confirm, read1]
    simp only [confirmGo_stop 100000 (asChar b) rest (asChar_byte_ne h0 h1)]
  | succ n =>
    simp only [List.replicate_succ, List.cons_append, confirm, read1, asChar_neg_one]
    simp only [confirmGo_replicate n 100000 b rest (by omega) (asChar_byte_ne h0 h1)]

/-! ## Claim theorems: the response confirmer -/

/-- C4 (amended): the confirmer maps the first obtained outcome to a result
code: byte `*` (42) yields OK, byte `#` (35) yields DeviceError, exhaustion
of the retry bound with no byte yields Timeout, and any other received byte
yields BadResponse — except the byte `0xFF` (255), which is excluded here
because its `char` image collides with the no-byte sentinel (see the C9
theorem). -/
theorem confirm_first_byte_mapping (k : Nat) (b : Int) (rest : List Int)
    (hk : k ≤ 100000) (h0 : 0 ≤ b) (h1 : b < 255) :
    (confirm (List.replicate k (-1) ++ b :: rest) =
      ((if b = 42 then REGLO_OK else if b = 35 then REGLO_ERROR else REGLO_BAD_RESPONSE),
        rest)) ∧
    ∀ l : List Int, (∀ x ∈ l, asChar x = -1) → (confirm l).1 = REGLO_TIMEOUT := by
  constructor
  · rw [confirm_replicate_byte k b rest hk h0 h1]
    by_cases hb42 : b = 42
    · subst hb42; norm_num [asChar]
    · by_cases hb35 : b = 35
      · subst hb35; norm_num [asChar]
      · have hne : asChar b ≠ 42 ∧ asChar b ≠ 35 ∧ asChar b ≠ -1 := by
          unfold asChar; omega
        simp [hne.1, hne.2.1, hne.2.2, hb42, hb35]
  · intro l hl
    cases l with
    | nil =>
      simp only [confirm, read1, asChar_neg_one, confirmGo_nil]
      norm_num [REGLO_TIMEOUT]
    | cons x r =>
      have h := confirmGo_noByte 100000 r (fun y hy => hl y (by simp [hy]))
      simp only [confirm, read1, hl x (by simp), h]
      norm_num [REGLO_TIMEOUT]

/-- C4 witness: concrete instances — byte `?` (63) yields BadResponse and an
empty trace yields Timeout. -/
theorem confirm_first_byte_mapping_witness :
    (confirm (List.replicate 0 (-1) ++ 63 :: []) =
      ((if (63 : Int) = 42 then REGLO_OK else if (63 : Int) = 35 then REGLO_ERROR
        else REGLO_BAD_RESPONSE), [])) ∧
    (confirm []).1 = REGLO_TIMEOUT := by
  have h := confirm_first_byte_mapping 0 63 [] (by decide) (by decide) (by decide)
  exact ⟨h.1, h.2 [] (by simp)⟩

/-- C4 counterexample: the channel delivers the single byte `0xFF` (255),
which is neither `*` nor `#`; the claim says any other received byte yields
BadResponse, but the confirmer returns Timeout. -/
theorem confirm_ff_byte_not_bad_response :
    (confirm [255]).1 = REGLO_TIMEOUT ∧ (confirm [255]).1 ≠ REGLO_BAD_RESPONSE := by
  have h : confirm [255] = (REGLO_TIMEOUT, []) := by
    have ha : asChar 255 = -1 := rfl
    simp only [confirm, read1, ha, confirmGo_nil]
    norm_num [REGLO_TIMEOUT]
  rw [h]
  exact ⟨rfl, by decide⟩

/-- C9: a received byte `0xFF` (255) is stored into a signed `char`, where it
becomes `-1` — indistinguishable from the internal no-byte sentinel
`RESPONSE_TIMEOUT` — so the confirmer treats it as "no byte yet" and, with
nothing further on the channel, ends in Timeout rather than BadResponse. -/
theorem confirm_ff_aliases_timeout :
    confirm [255] = (REGLO_TIMEOUT, []) ∧ asChar 255 = asChar (-1) ∧
      REGLO_TIMEOUT ≠ REGLO_BAD_RESPONSE := by
  refine ⟨?_, rfl, by decide⟩
  have ha : asChar 255 = -1 := rfl
  simp only [confirm, read1, ha, confirmGo_nil]
  norm_num [REGLO_TIMEOUT]

/-! ## Claim theorems: frame decoding -/

/-- C2 counterexample: a collected frame of nine `X` bytes does not match
`<digits>E<sign><digit>`, yet the decode returns OK (the source never checks
the `sscanf` result), leaving the output fields unchanged — it does not
return BadResponse as the claim states. -/
theorem decode_nonmatching_frame_ok :
    read_float_from_pump [88, 88, 88, 88, 88, 88, 88, 88, 88] 7 7 =
      some (REGLO_OK, 7, 7, []) ∧ REGLO_OK ≠ REGLO_BAD_RESPONSE := by
  exact ⟨by decide, by decide⟩

/-- C2 (amended): the decode parses the frame bytes `0080E-01\r\n` to
mantissa 80 and exponent −1 with result OK (the ninth collected byte is the
`\r`; the `\n` stays on the channel); and for every collected frame whose
first byte is not `#`, the decode returns OK whether or not the frame
matches `<digits>E<sign><digit>` — a non-matching frame never yields
BadResponse, its unparsed fields simply keep their previous values. -/
theorem decode_frame_parse (m0 e0 : Int) :
    read_float_from_pump [48, 48, 56, 48, 69, 45, 48, 49, 13, 10] m0 e0 =
      some (REGLO_OK, 80, -1, [10]) ∧
    ∀ (l : List Int) (res : Int × Int × Int × List Int),
      read_float_from_pump l m0 e0 = some res → res.1 ≠ REGLO_BAD_RESPONSE := by
  constructor
  · rfl
  · intro l res h
    unfold read_float_from_pump at h
    split at h
    · exact absurd h (by simp)
    · split at h
      · cases h; simp [REGLO_ERROR, REGLO_BAD_RESPONSE]
      · split at h
        · exact absurd h (by simp)
        · cases h; simp [REGLO_OK, REGLO_BAD_RESPONSE]

/-- C2 witness: the amended theorem applied at concrete inputs. -/
theorem decode_frame_parse_witness :
    read_float_from_pump [48, 48, 56, 48, 69, 45, 48, 49, 13, 10] 0 0 =
      some (REGLO_OK, 80, -1, [10]) ∧
    REGLO_OK ≠ REGLO_BAD_RESPONSE := by
  have h := decode_frame_parse 0 0
  exact ⟨h.1, h.2 [48, 48, 56, 48, 69, 45, 48, 49, 13, 10] (REGLO_OK, 80, -1, [10]) h.1⟩

/-- C7: if the first byte collected from the channel is `#`, the decode
returns DeviceError at once: the remaining trace is exactly what followed
the `#`, so none of the other frame bytes is consumed or waited for, and the
caller's values are untouched. -/
theorem decode_hash_immediate_error (l : List Int) (rest : List Int) (m0 e0 : Int)
    (h : skipWait l = some (35, rest)) :
    read_float_from_pump l m0 e0 = some (REGLO_ERROR, m0, e0, rest) := by
  unfold read_float_from_pump
  rw [h]
  simp

/-- C7 witness: the device answers `#` and one further byte is on the trace;
the decode errors out leaving that byte unread. -/
theorem decode_hash_immediate_error_witness :
    read_float_from_pump [35, 99] 5 6 = some (REGLO_ERROR, 5, 6, [99]) :=
  decode_hash_immediate_error [35, 99] [99] 5 6 (by decide)

/-! ## Claim theorems: set-point verification -/

/-- C1: whenever the echoed frame decodes to a (mantissa, exponent) pair, the
verification step of `set_flow_rate` computes the requested value
`m0·10^e0` and the echoed value `mN·10^eN`, rounds both to 4 decimal digits
(`round(v·10^4)`), returns OK when they agree and BadResponse when they do
not, and in both cases the caller's mantissa/exponent are set to the echoed
pair, never left at the requested one. -/
theorem setpoint_verification (l : List Int) (m0 e0 mN eN : Int) (rest : List Int)
    (h : read_float_from_pump l 0 0 = some (REGLO_OK, mN, eN, rest)) :
    read_float_and_confirm l m0 e0 =
      some ((if roundC ((mN : ℚ) * (10 : ℚ) ^ (eN : Int) * 10000) =
                roundC ((m0 : ℚ) * (10 : ℚ) ^ (e0 : Int) * 10000)
             then REGLO_OK else REGLO_BAD_RESPONSE), mN, eN, rest) := by
  unfold read_float_and_confirm
  rw [h]
  simp only [ne_eq, not_true_eq_false, if_false, ite_not]
  split <;> simp_all

/-- C1 witness: requesting mantissa 1234, exponent −2 and receiving the echo
frame `1234E-02\r` yields OK with the echoed pair. -/
theorem setpoint_verification_witness :
    read_float_and_confirm [49, 50, 51, 52, 69, 45, 48, 50, 13] 1234 (-2) =
      some (REGLO_OK, 1234, -2, []) := by
  have h := setpoint_verification [49, 50, 51, 52, 69, 45, 48, 50, 13]
    1234 (-2) 1234 (-2) [] (by decide)
  rw [h, if_pos rfl]

lemma rfac_error_code (l : List Int) (m0 e0 code m e : Int) (rest : List Int)
    (h : read_float_and_confirm l m0 e0 = some (code, m, e, rest))
    (hc : code = REGLO_ERROR) : m = m0 ∧ e = e0 := by
  unfold read_float_and_confirm at h
  split at h
  · exact absurd h (by simp)
  · split at h
    · cases h; exact ⟨rfl, rfl⟩
    · simp only at h
      split at h
      · cases h; exact absurd hc (by decide)
      · cases h; exact absurd hc (by decide)

/-- C10: when `set_flow_rate` completes with DeviceError (the device answered
`#` instead of echoing a frame), the caller's mantissa and exponent are the
requested values, not overwritten by any echoed value. -/
theorem set_flow_rate_deverror_preserves_values (addr : Nat) (l : List Int)
    (m0 e0 : Int) (w : List Int) (code m e : Int) (rest : List Int)
    (h : set_flow_rate addr l m0 e0 = (w, some (code, m, e, rest)))
    (hc : code = REGLO_ERROR) : m = m0 ∧ e = e0 := by
  have hsnd : (set_flow_rate addr l m0 e0).2 = some (code, m, e, rest) := by rw [h]
  simp only [set_flow_rate] at hsnd
  by_cases h1 : e0 > 9 ∨ e0 < -9
  · simp only [if_pos h1, Option.some.injEq, Prod.mk.injEq] at hsnd
    exact ⟨hsnd.2.1.symm, hsnd.2.2.1.symm⟩
  · simp only [if_neg h1] at hsnd
    by_cases h2 : m0 > 9999 ∨ m0 < 0
    · simp only [if_pos h2, Option.some.injEq, Prod.mk.injEq] at hsnd
      exact ⟨hsnd.2.1.symm, hsnd.2.2.1.symm⟩
    · simp only [if_neg h2] at hsnd
      by_cases h3 : (request (some (renderSetFlowRate addr m0.toNat
          (if 0 ≤ e0 then 43 else 45) e0.natAbs)) []).1 ≠ REGLO_OK
      · simp only [if_pos h3, Option.some.injEq, Prod.mk.injEq] at hsnd
        exfalso
        rw [hc] at hsnd
        exact absurd hsnd.1 (by decide)
      · simp only [if_neg h3] at hsnd
        exact rfac_error_code (clear_buffer l) m0 e0 code m e rest hsnd hc

/-- C10 witness: the device answers `#` (after one no-byte poll consumed by
the stale-byte drain); `set_flow_rate` returns DeviceError and the caller's
pair is still (100, 2). -/
theorem set_flow_rate_deverror_preserves_values_witness :
    (100 : Int) = 100 ∧ (2 : Int) = 2 :=
  set_flow_rate_deverror_preserves_values 1 [-1, 35] 100 2
    [49, 102, 48, 49, 48, 48, 43, 50, 13] REGLO_ERROR 100 2 [] (by decide) rfl

/-! ## Claim theorems: validation and encoding -/

/-- C3 counterexample: `set_flow_rate` with exponent 10 (out of range) on a
channel holding one stale byte returns OutOfRange, but the remaining read
trace is empty — the stale-byte drain read (and consumed) the channel before
the validation failure, contradicting the claim that no read touches the
channel. -/
theorem set_flow_rate_oor_reads_channel :
    (set_flow_rate 1 [42] 0 10).2 = some (REGLO_OUT_OF_RANGE, 0, 10, []) ∧
    (set_flow_rate 1 [42] 0 10).1 = [] ∧ ([] : List Int) ≠ [42] := by
  exact ⟨by decide, by decide, by decide⟩

/-- C3 (amended): for exponent outside [−9,9] or mantissa outside [0,9999],
`set_flow_rate` returns OutOfRange and writes nothing to the channel, but it
first drains the receive side (`clear_buffer`), so reads do touch the
channel before the validation failure. -/
theorem set_flow_rate_out_of_range (addr : Nat) (l : List Int) (m0 e0 : Int)
    (h : 9 < e0 ∨ e0 < -9 ∨ 9999 < m0 ∨ m0 < 0) :
    set_flow_rate addr l m0 e0 = ([], some (REGLO_OUT_OF_RANGE, m0, e0, clear_buffer l)) := by
  simp only [set_flow_rate]
  by_cases h1 : e0 > 9 ∨ e0 < -9
  · rw [if_pos h1]
  · rw [if_neg h1, if_pos (by omega)]

/-- C3 witness: exponent 10 with a stale byte on the channel. -/
theorem set_flow_rate_out_of_range_witness :
    set_flow_rate 1 [42] 0 10 = ([], some (REGLO_OUT_OF_RANGE, 0, 10, [])) := by
  have h := set_flow_rate_out_of_range 1 [42] 0 10 (by omega)
  rw [h]
  decide

/-- C5: whenever the rendered command is malformed (`vsnprintf` returned
`-1`) or its length reaches or exceeds the 16-byte encoding buffer,
`request` returns InternalError and the channel's written-byte log is
unchanged — no bytes are transmitted. -/
theorem request_overflow_internal_error (r : Option (List Int)) (out : List Int)
    (h : r = none ∨ ∃ s, r = some s ∧ BUFFER_SIZE ≤ s.length) :
    request r out = (REGLO_INTERNAL_ERROR, out) := by
  rcases h with h | ⟨s, rfl, hs⟩
  · subst h; rfl
  · simp only [request, if_pos hs]

/-- C5 witness: a 16-byte rendering fails with InternalError and writes
nothing. -/
theorem request_overflow_internal_error_witness :
    request (some (List.replicate 16 0)) [] = (REGLO_INTERNAL_ERROR, []) :=
  request_overflow_internal_error (some (List.replicate 16 0)) []
    (Or.inr ⟨List.replicate 16 0, rfl, by decide⟩)

lemma natDigitsRevGo_length_le (k : Nat) :
    ∀ (n fuel : Nat), n < 10 ^ (k + 1) → n < fuel →
      (natDigitsRevGo fuel n).length ≤ k + 1 := by
  induction k with
  | zero =>
    intro n fuel hn hf
    obtain ⟨f, rfl⟩ : ∃ f, fuel = f + 1 := ⟨fuel - 1, by omega⟩
    simp only [natDigitsRevGo, if_pos (by omega : n < 10)]
    simp
  | succ j ih =>
    intro n fuel hn hf
    obtain ⟨f, rfl⟩ : ∃ f, fuel = f + 1 := ⟨fuel - 1, by omega⟩
    by_cases h10 : n < 10
    · simp only [natDigitsRevGo, if_pos h10]
      simp
    · simp only [natDigitsRevGo, if_neg h10, List.length_cons]
      have hdiv : n / 10 < 10 ^ (j + 1) := by
        rw [Nat.div_lt_iff_lt_mul (by omega)]
        calc n < 10 ^ (j + 1 + 1) := hn
        _ = 10 ^ (j + 1) * 10 := by ring
      have hdf : n / 10 < f := by
        have : n / 10 < n := Nat.div_lt_self (by omega) (by omega)
        omega
      have := ih (n / 10) f hdiv hdf
      omega

lemma natDecimal_single (n : Nat) (h : n < 10) : natDecimal n = [48 + (n : Int)] := by
  simp [natDecimal, natDigitsRev, natDigitsRevGo, if_pos h]

lemma natDecimal_length_le4 (m : Nat) (h : m ≤ 9999) : (natDecimal m).length ≤ 4 := by
  unfold natDecimal
  rw [List.length_map, List.length_reverse]
  exact natDigitsRevGo_length_le 3 m (m + 1) (by omega) (by omega)

lemma pad4_length (m : Nat) (h : m ≤ 9999) : (pad4 m).length = 4 := by
  have := natDecimal_length_le4 m h
  simp only [pad4, List.length_append, List.length_replicate]
  omega

/-- C6: for every address in [1,8], mantissa in [0,9999] and exponent in
[−9,9], `set_flow_rate` transmits exactly: the decimal address digit, `f`,
the mantissa zero-padded to 4 digits, the sign character (`+` when the
exponent is ≥ 0, `-` otherwise), the single digit of the absolute exponent,
and a carriage return. -/
theorem set_flow_rate_wire_format (a : Nat) (m e : Int) (l : List Int)
    (ha1 : 1 ≤ a) (ha2 : a ≤ 8) (hm1 : 0 ≤ m) (hm2 : m ≤ 9999)
    (he1 : -9 ≤ e) (he2 : e ≤ 9) :
    (set_flow_rate a l m e).1 =
      [48 + (a : Int), 102] ++ pad4 m.toNat ++
        [(if 0 ≤ e then 43 else 45), 48 + (e.natAbs : Int), 13] := by
  have hA : natDecimal a = [48 + (a : Int)] := natDecimal_single a (by omega)
  have hE : natDecimal e.natAbs = [48 + (e.natAbs : Int)] := natDecimal_single _ (by omega)
  have hP : (pad4 m.toNat).length = 4 := pad4_length _ (by omega)
  simp only [set_flow_rate, if_neg (by omega : ¬(e > 9 ∨ e < -9)),
    if_neg (by omega : ¬(m > 9999 ∨ m < 0)), request, renderSetFlowRate, hA, hE]
  simp [hP, BUFFER_SIZE, REGLO_OK]

/-- C6 witness: address 2, mantissa 1234, exponent −2 renders `2f1234-2\r`. -/
theorem set_flow_rate_wire_format_witness :
    (set_flow_rate 2 [] 1234 (-2)).1 =
      [48 + (2 : Int), 102] ++ pad4 (Int.toNat 1234) ++
        [(if (0 : Int) ≤ -2 then 43 else 45), 48 + ((Int.natAbs (-2) : Nat) : Int), 13] :=
  set_flow_rate_wire_format 2 1234 (-2) [] (by decide) (by decide) (by decide)
    (by decide) (by decide) (by decide)

/-! ## Claim theorems: controller state -/

/-- C8 counterexample: the constructor performs no range check, so a
controller constructed with address 42 stores 42, outside the documented
range [1,8] — the claim's invariant "address always in [1,8]" fails. -/
theorem controller_address_unchecked :
    (mkRegloCPF 0 42).address = 42 ∧
    ¬(1 ≤ (mkRegloCPF 0 42).address ∧ (mkRegloCPF 0 42).address ≤ 8) := by
  exact ⟨by decide, by decide⟩

/-- C8 (amended): the constructor stores the channel reference and the given
address (reduced mod 256 by the `uint8_t` parameter type) without validating
the documented range [1,8]; and no public operation — start, stop,
clockwise, counterClockwise, enable/disable control panel, get_flow_rate,
set_flow_rate — modifies the stored address or the stored channel reference
after construction. -/
theorem controller_state_immutable :
    (∀ s a : Nat, (mkRegloCPF s a).address = a % 256 ∧ (mkRegloCPF s a).stream = s) ∧
    (∀ (c : RegloCPF) (l : List Int) (m e : Int),
      (c.start l).1 = c ∧ (c.stop l).1 = c ∧ (c.clockwise l).1 = c ∧
      (c.counterClockwise l).1 = c ∧ (c.enable_control_panel l).1 = c ∧
      (c.disable_control_panel l).1 = c ∧ (c.get_flow_rate' l m e).1 = c ∧
      (c.set_flow_rate' l m e).1 = c) :=
  ⟨fun _ _ => ⟨rfl, rfl⟩,
   fun _ _ _ _ => ⟨rfl, rfl, rfl, rfl, rfl, rfl, rfl, rfl⟩⟩
